import Mathlib

/-!
Shallow embedding of `source/blender/blenkernel/intern/pointcloud.cc`.

C `float` scalars are modelled as rationals (`ℚ`); none of the verified
properties depend on floating-point rounding, only on the structure of the
computations (which code path runs, which cache is consulted, which
reduction is applied).  Dense attribute buffers are modelled as Lean lists,
`CustomData` as a list of named typed layers, and the lazily computed
runtime caches (`SharedCache` in Blender, called `DerivedCache` in the
specification) as an explicit three-state value.  Helper collaborators that
live outside this translation unit (`BLI_bounds`, `VArray`, `CustomData`,
`SharedCache`, `GeometrySet`) are modelled from the specification and are
marked as such in their doc comments.
-/

/-- Component-wise 3-vector of rationals, modelling `blender::float3`. -/
structure V3 where
  x : ℚ
  y : ℚ
  z : ℚ
deriving DecidableEq

/-- The zero vector, the default-constructed `float3`. -/
def V3.zero : V3 := ⟨0, 0, 0⟩

/-- Component-wise minimum of two vectors (`blender::math::min`). -/
def V3.cmin (a b : V3) : V3 := ⟨min a.x b.x, min a.y b.y, min a.z b.z⟩

/-- Component-wise maximum of two vectors (`blender::math::max`). -/
def V3.cmax (a b : V3) : V3 := ⟨max a.x b.x, max a.y b.y, max a.z b.z⟩

/-- Subtract a scalar from every component. -/
def V3.subs (a : V3) (r : ℚ) : V3 := ⟨a.x - r, a.y - r, a.z - r⟩

/-- Add a scalar to every component. -/
def V3.adds (a : V3) (r : ℚ) : V3 := ⟨a.x + r, a.y + r, a.z + r⟩

/-- An axis-aligned bounding box, modelling `blender::Bounds<float3>`. -/
structure BoundsQ where
  min : V3
  max : V3
deriving DecidableEq

/-- Modelled from the spec: `Bounds::pad` expands the box uniformly on all
sides by the given amount (`min -= padding; max += padding`). -/
def BoundsQ.pad (b : BoundsQ) (r : ℚ) : BoundsQ := ⟨b.min.subs r, b.max.adds r⟩

namespace bounds

/-- Modelled from the spec: `blender::bounds::min_max` computes the
axis-aligned min/max envelope over all positions, and is "no value" for an
empty input. -/
def min_max : List V3 → Option BoundsQ
  | [] => none
  | p :: ps => some (ps.foldl (fun b q => ⟨b.min.cmin q, b.max.cmax q⟩) ⟨p, p⟩)

/-- Modelled from the spec: `blender::bounds::min_max_with_radii`, the
dedicated min/max-with-per-element-radius reduction in which each point is
expanded by its own radius. -/
def min_max_with_radii (ps : List V3) (rs : List ℚ) : Option BoundsQ :=
  match ps.zip rs with
  | [] => none
  | pr :: rest =>
      some (rest.foldl
        (fun b qr => ⟨b.min.cmin (qr.1.subs qr.2), b.max.cmax (qr.1.adds qr.2)⟩)
        ⟨pr.1.subs pr.2, pr.1.adds pr.2⟩)

/-- Modelled from the spec: `blender::bounds::max<int>`, a scan-reduce
returning the maximum of the values, or "no value" for an empty input. -/
def max_int : List ℤ → Option ℤ
  | [] => none
  | v :: vs => some (vs.foldl max v)

end bounds

/-- Stand-in value for the C++ undefined behaviour of dereferencing an empty
`std::optional` (never reached under the hypotheses of the theorems below). -/
def derefNone : BoundsQ := ⟨V3.zero, V3.zero⟩

/-- The typed dense data of one attribute layer.  The element types used by
this translation unit are `float` (radius), `float3` (position) and `int32`
(material index). -/
inductive AttrData where
  | floats (l : List ℚ)
  | float3s (l : List V3)
  | ints (l : List ℤ)
deriving DecidableEq

/-- Modelled from the spec: resizing a layer keeps the leading values and
default-constructs the new tail (`CustomData_realloc` construction). -/
def AttrData.resize (d : AttrData) (n : Nat) : AttrData :=
  match d with
  | .floats l => .floats (l.take n ++ List.replicate (n - l.length) 0)
  | .float3s l => .float3s (l.take n ++ List.replicate (n - l.length) V3.zero)
  | .ints l => .ints (l.take n ++ List.replicate (n - l.length) 0)

/-- One named typed layer of a `CustomData` block. -/
structure Layer where
  name : String
  data : AttrData
deriving DecidableEq

/-- Modelled from the spec: `CustomData_get_layer_named` for `CD_PROP_FLOAT`:
the first layer whose element type is `float` and whose name matches. -/
def findFloatLayer : List Layer → String → Option (List ℚ)
  | [], _ => none
  | l :: rest, name =>
      match l.data with
      | .floats d => if l.name = name then some d else findFloatLayer rest name
      | _ => findFloatLayer rest name

/-- Modelled from the spec: `CustomData_get_layer_named` for
`CD_PROP_FLOAT3`. -/
def findFloat3Layer : List Layer → String → Option (List V3)
  | [], _ => none
  | l :: rest, name =>
      match l.data with
      | .float3s d => if l.name = name then some d else findFloat3Layer rest name
      | _ => findFloat3Layer rest name

/-- Modelled from the spec: `CustomData_get_layer_named` for
`CD_PROP_INT32`. -/
def findIntLayer : List Layer → String → Option (List ℤ)
  | [], _ => none
  | l :: rest, name =>
      match l.data with
      | .ints d => if l.name = name then some d else findIntLayer rest name
      | _ => findIntLayer rest name

/-- Modelled from the spec: `CustomData_free_layer_named` removes the first
layer with the given name. -/
def CustomData_free_layer_named (pdata : List Layer) (name : String) : List Layer :=
  pdata.eraseP (fun l => l.name == name)

/-- Modelled from the spec: `CustomData_realloc` resizes every layer of the
block in lock-step to the new element count. -/
def CustomData_realloc (pdata : List Layer) (n : Nat) : List Layer :=
  pdata.map (fun l => ⟨l.name, l.data.resize n⟩)

/-- Modelled from the spec (§3 DerivedCache): a memoized derived value with
three states — `empty` (never computed), `valid` (holds the value), `dirty`
(a value existed but is stale).  Models `blender::SharedCache`. -/
inductive CacheState (α : Type) where
  | empty
  | dirty
  | valid (v : α)
deriving DecidableEq

/-- Modelled from the spec: `tag_dirty` moves `valid` to `dirty` and is a
no-op on the other states. -/
def CacheState.tag_dirty {α : Type} : CacheState α → CacheState α
  | .valid _ => .dirty
  | .empty => .empty
  | .dirty => .dirty

/-- Whether the cache currently holds a usable value. -/
def CacheState.isValid {α : Type} : CacheState α → Bool
  | .valid _ => true
  | _ => false

/-- Modelled from the spec: `ensure` returns the stored value when `valid`,
otherwise runs the compute closure and stores its result. -/
def CacheState.ensure {α : Type} (c : CacheState α) (f : Unit → α) : α × CacheState α :=
  match c with
  | .valid v => (v, .valid v)
  | _ => (f (), .valid (f ()))

/-- The runtime data of a point cloud: the three derived caches
(`blender::bke::PointCloudRuntime`).  The acceleration structure's payload is
opaque to this file and modelled as `Unit`. -/
structure PointCloudRuntime where
  bounds_cache : CacheState BoundsQ
  bounds_with_radius_cache : CacheState BoundsQ
  bvh_cache : CacheState Unit
deriving DecidableEq

/-- The point-cloud datablock: point count, attribute layers (`pdata`),
material references and runtime caches.  `totpoint` is a C `int`, hence `ℤ`. -/
structure PointCloud where
  totpoint : ℤ
  pdata : List Layer
  mat : List Nat
  totcol : ℤ
  runtime : PointCloudRuntime
deriving DecidableEq

/-- `pointcloud_init_data`: a freshly initialized datablock has zero points,
a (zero-length) position layer added at construction, no materials, and
fresh (never computed) runtime caches. -/
def pointcloud_init_data : PointCloud :=
  { totpoint := 0
    pdata := [⟨"position", AttrData.float3s []⟩]
    mat := []
    totcol := 0
    runtime := ⟨.empty, .empty, .empty⟩ }

/-- `BKE_pointcloud_new_nomain`: initialize an empty datablock, then resize
the attribute block from 0 to `totpoint` elements and store the count. -/
def BKE_pointcloud_new_nomain (totpoint : ℤ) : PointCloud :=
  let pc := pointcloud_init_data
  { pc with
    pdata := CustomData_realloc pc.pdata totpoint.toNat
    totpoint := totpoint }

/-- `blender::bke::pointcloud_new_no_attributes`: build a zero-point cloud,
override the stored count, and free the position layer. -/
def pointcloud_new_no_attributes (totpoint : ℤ) : PointCloud :=
  let pc := BKE_pointcloud_new_nomain 0
  let pc := { pc with totpoint := totpoint }
  { pc with pdata := CustomData_free_layer_named pc.pdata "position" }

/-- `BKE_pointcloud_attribute_required`: only the name `"position"` is
required. -/
def BKE_pointcloud_attribute_required (name : String) : Bool :=
  name == "position"

/-- `PointCloud::tag_positions_changed`: tag all three runtime caches dirty. -/
def PointCloud.tag_positions_changed (pc : PointCloud) : PointCloud :=
  { pc with
    runtime :=
      { bounds_cache := pc.runtime.bounds_cache.tag_dirty
        bounds_with_radius_cache := pc.runtime.bounds_with_radius_cache.tag_dirty
        bvh_cache := pc.runtime.bvh_cache.tag_dirty } }

/-- `PointCloud::tag_radii_changed`: tag only the radius-padded bounds cache
dirty. -/
def PointCloud.tag_radii_changed (pc : PointCloud) : PointCloud :=
  { pc with
    runtime :=
      { bounds_cache := pc.runtime.bounds_cache
        bounds_with_radius_cache := pc.runtime.bounds_with_radius_cache.tag_dirty
        bvh_cache := pc.runtime.bvh_cache } }

/-- `get_span_attribute<float3>` applied to `"position"`
(`PointCloud::positions`): the backing layer, or the empty span when absent. -/
def PointCloud.positions (pc : PointCloud) : List V3 :=
  (findFloat3Layer pc.pdata "position").getD []

/-- A virtual array of floats, modelling `blender::VArray<float>`: either a
span over a real backing layer or a single repeated value. -/
inductive VArrayQ where
  | forSpan (data : List ℚ)
  | forSingle (v : ℚ) (n : Nat)
deriving DecidableEq

/-- Modelled from the spec: `VArray::get_if_single` yields the value only for
the single-value (virtual) variant. -/
def VArrayQ.get_if_single : VArrayQ → Option ℚ
  | .forSpan _ => none
  | .forSingle v _ => some v

/-- Modelled from the spec: `VArray::get_internal_span`; only called on the
span variant (undefined on the single variant, modelled as the empty list). -/
def VArrayQ.get_internal_span : VArrayQ → List ℚ
  | .forSpan d => d
  | .forSingle _ _ => []

/-- `get_varray_attribute<float>`: the backing layer as a span when present,
otherwise a virtual single-value view of the default over `totpoint`
elements. -/
def get_varray_attribute_float (pc : PointCloud) (name : String) (default_value : ℚ) :
    VArrayQ :=
  match findFloatLayer pc.pdata name with
  | some d => .forSpan d
  | none => .forSingle default_value pc.totpoint.toNat

/-- `PointCloud::radius`: the radius attribute viewed with default `0.01`. -/
def PointCloud.radius (pc : PointCloud) : VArrayQ :=
  get_varray_attribute_float pc "radius" (1 / 100)

/-- Replace the plain-bounds cache. -/
def PointCloud.setBoundsCache (pc : PointCloud) (c : CacheState BoundsQ) : PointCloud :=
  { pc with runtime := { pc.runtime with bounds_cache := c } }

/-- Replace the radius-padded bounds cache. -/
def PointCloud.setBWRCache (pc : PointCloud) (c : CacheState BoundsQ) : PointCloud :=
  { pc with runtime := { pc.runtime with bounds_with_radius_cache := c } }

/-- The `use_radius = false` arm of `PointCloud::bounds_min_max`: ensure the
plain-bounds cache from the positions envelope and return its data.  The
`*` dereference of the optional from `bounds::min_max` is modelled by
`Option.getD derefNone` (undefined behaviour in C++ for an empty span). -/
def PointCloud.bounds_min_max_plain (pc : PointCloud) : Option BoundsQ × PointCloud :=
  if pc.totpoint = 0 then (none, pc)
  else
    let r := pc.runtime.bounds_cache.ensure
      (fun _ => (bounds.min_max pc.positions).getD derefNone)
    (some r.1, pc.setBoundsCache r.2)

/-- `PointCloud::bounds_min_max`: "no value" for zero points; otherwise
ensure the requested cache — the radius-padded one recomputes either by
padding the plain bounds by the single virtual radius value, or by the
per-element min/max-with-radii reduction — and return the cache's data. -/
def PointCloud.bounds_min_max (pc : PointCloud) (use_radius : Bool) :
    Option BoundsQ × PointCloud :=
  if use_radius then
    if pc.totpoint = 0 then (none, pc)
    else
      match pc.runtime.bounds_with_radius_cache with
      | .valid b => (some b, pc)
      | _ =>
          let radius := pc.radius
          match radius.get_if_single with
          | some radius_single =>
              let pr := pc.bounds_min_max_plain
              let b := (pr.1.getD derefNone).pad radius_single
              (some b, pr.2.setBWRCache (.valid b))
          | none =>
              let b := (bounds.min_max_with_radii pc.positions
                radius.get_internal_span).getD derefNone
              (some b, pc.setBWRCache (.valid b))
  else pc.bounds_min_max_plain

/-- A tagged dirty cache never reads as valid. -/
theorem CacheState.tag_dirty_not_valid {α : Type} (c : CacheState α) :
    c.tag_dirty.isValid = false := by
  cases c <;> rfl

/-- C2: `tag_positions_changed` marks all three derived caches dirty
(applies `tag_dirty`, after which none reads as valid), while
`tag_radii_changed` marks only the radius-padded bounds cache dirty and
leaves the plain bounds cache and the acceleration-structure cache in their
prior state. -/
theorem tag_changed_cache_invalidation (pc : PointCloud) :
    pc.tag_positions_changed.runtime.bounds_cache = pc.runtime.bounds_cache.tag_dirty
    ∧ pc.tag_positions_changed.runtime.bounds_with_radius_cache
        = pc.runtime.bounds_with_radius_cache.tag_dirty
    ∧ pc.tag_positions_changed.runtime.bvh_cache = pc.runtime.bvh_cache.tag_dirty
    ∧ pc.tag_positions_changed.runtime.bounds_cache.isValid = false
    ∧ pc.tag_positions_changed.runtime.bounds_with_radius_cache.isValid = false
    ∧ pc.tag_positions_changed.runtime.bvh_cache.isValid = false
    ∧ pc.tag_radii_changed.runtime.bounds_with_radius_cache
        = pc.runtime.bounds_with_radius_cache.tag_dirty
    ∧ pc.tag_radii_changed.runtime.bounds_with_radius_cache.isValid = false
    ∧ pc.tag_radii_changed.runtime.bounds_cache = pc.runtime.bounds_cache
    ∧ pc.tag_radii_changed.runtime.bvh_cache = pc.runtime.bvh_cache := by
  refine ⟨rfl, rfl, rfl, ?_, ?_, ?_, rfl, ?_, rfl, rfl⟩ <;>
    apply CacheState.tag_dirty_not_valid

/-- C3: a point cloud with zero points answers "no value" to both the plain
and the radius-padded bounds query, and the query leaves the point cloud
(in particular every cache) untouched — no bounds computation runs. -/
theorem bounds_min_max_empty (pc : PointCloud) (h : pc.totpoint = 0) :
    pc.bounds_min_max true = (none, pc) ∧ pc.bounds_min_max false = (none, pc) := by
  constructor <;> simp [PointCloud.bounds_min_max, PointCloud.bounds_min_max_plain, h]

/-- Witness for C3 at a concrete zero-point cloud. -/
theorem bounds_min_max_empty_witness :
    (0 : ℤ) = 0
    ∧ PointCloud.bounds_min_max ⟨0, [], [], 0, ⟨.empty, .empty, .empty⟩⟩ true
        = (none, ⟨0, [], [], 0, ⟨.empty, .empty, .empty⟩⟩) :=
  ⟨rfl, (bounds_min_max_empty ⟨0, [], [], 0, ⟨.empty, .empty, .empty⟩⟩ rfl).1⟩

/-- C8: constructing a point cloud with `n ≥ 0` points yields point count
`n` and a position layer with exactly `n` elements. -/
theorem new_nomain_point_count_position (n : ℤ) (h : 0 ≤ n) :
    (BKE_pointcloud_new_nomain n).totpoint = n
    ∧ ∃ d, findFloat3Layer (BKE_pointcloud_new_nomain n).pdata "position" = some d
        ∧ (d.length : ℤ) = n := by
  refine ⟨rfl, List.replicate n.toNat V3.zero, ?_, ?_⟩
  · simp [BKE_pointcloud_new_nomain, pointcloud_init_data, CustomData_realloc,
      AttrData.resize, findFloat3Layer]
  · simp [Int.toNat_of_nonneg h]

/-- Witness for C8 at `n = 3`. -/
theorem new_nomain_point_count_position_witness :
    (0 : ℤ) ≤ 3
    ∧ ((BKE_pointcloud_new_nomain 3).totpoint = 3
        ∧ ∃ d, findFloat3Layer (BKE_pointcloud_new_nomain 3).pdata "position" = some d
            ∧ (d.length : ℤ) = 3) :=
  ⟨by decide, new_nomain_point_count_position 3 (by decide)⟩

/-- C10: `pointcloud_new_no_attributes n` has point count `n` but no
position layer, even though the required-attribute predicate holds exactly
for the name `"position"`. -/
theorem pointcloud_new_no_attributes_spec (n : ℤ) :
    (pointcloud_new_no_attributes n).totpoint = n
    ∧ findFloat3Layer (pointcloud_new_no_attributes n).pdata "position" = none
    ∧ (∀ name : String, BKE_pointcloud_attribute_required name = true ↔ name = "position") := by
  refine ⟨rfl, ?_, ?_⟩
  · simp [pointcloud_new_no_attributes, BKE_pointcloud_new_nomain, pointcloud_init_data,
      CustomData_realloc, CustomData_free_layer_named, AttrData.resize, List.eraseP,
      findFloat3Layer]
  · intro name
    simp [BKE_pointcloud_attribute_required]

/-- The maximum valid material index, `MAXMAT` from `DNA_material_types.h`. -/
def MAXMAT : ℤ := 32767

/-- Modelled from the spec: `attributes().lookup_or_default<int>` — the
backing integer layer when present, otherwise a virtual array reading as the
default everywhere over the point domain. -/
def lookup_or_default_int (pc : PointCloud) (name : String) (default_value : ℤ) :
    List ℤ :=
  match findIntLayer pc.pdata name with
  | some d => d
  | none => List.replicate pc.totpoint.toNat default_value

/-- `PointCloud::material_index_max`: "no value" for zero points, otherwise
the maximum of the `material_index` attribute viewed with default 0, clamped
into `[0, MAXMAT]` (`std::clamp`). -/
def PointCloud.material_index_max (pc : PointCloud) : Option ℤ :=
  if pc.totpoint = 0 then none
  else
    (bounds.max_int (lookup_or_default_int pc "material_index" 0)).map
      (fun m => max 0 (min m MAXMAT))

/-- Folding `max` over copies of the start value returns the start value. -/
theorem foldl_max_replicate_self (n : Nat) (a : ℤ) :
    List.foldl max a (List.replicate n a) = a := by
  induction n with
  | zero => rfl
  | succ k ih => simp [List.replicate_succ, ih]

/-- The maximum of a nonempty all-default view is the default. -/
theorem max_int_replicate (n : Nat) (h : 0 < n) (a : ℤ) :
    bounds.max_int (List.replicate n a) = some a := by
  cases n with
  | zero => omega
  | succ k => simp [bounds.max_int, List.replicate_succ, foldl_max_replicate_self]

/-- C4: `material_index_max` is "no value" at zero points; with points and
no `material_index` layer it is the default 0; with a backing layer it is
the clamped maximum of that layer; and any returned value lies in
`[0, MAXMAT]`. -/
theorem material_index_max_spec (pc : PointCloud) :
    (pc.totpoint = 0 → pc.material_index_max = none)
    ∧ (0 < pc.totpoint → findIntLayer pc.pdata "material_index" = none →
        pc.material_index_max = some 0)
    ∧ (∀ l, pc.totpoint ≠ 0 → findIntLayer pc.pdata "material_index" = some l →
        pc.material_index_max = (bounds.max_int l).map (fun m => max 0 (min m MAXMAT)))
    ∧ (∀ m, pc.material_index_max = some m → 0 ≤ m ∧ m ≤ MAXMAT) := by
  refine ⟨?_, ?_, ?_, ?_⟩
  · intro h
    simp [PointCloud.material_index_max, h]
  · intro hpos habs
    have hne : pc.totpoint ≠ 0 := by omega
    have hn : 0 < pc.totpoint.toNat := by omega
    simp [PointCloud.material_index_max, hne, lookup_or_default_int, habs,
      max_int_replicate _ hn]
  · intro l hne hl
    simp [PointCloud.material_index_max, hne, lookup_or_default_int, hl]
  · intro m hm
    unfold PointCloud.material_index_max at hm
    split at hm
    · exact absurd hm (by simp)
    · obtain ⟨v, -, hv⟩ := Option.map_eq_some'.mp hm
      subst hv
      refine ⟨le_max_left _ _, max_le ?_ (min_le_right _ _)⟩
      simp [MAXMAT]

/-- Witness for C4: three points, no material-index layer, result 0. -/
theorem material_index_max_spec_witness :
    PointCloud.material_index_max ⟨3, [], [], 0, ⟨.empty, .empty, .empty⟩⟩ = some 0 :=
  (material_index_max_spec ⟨3, [], [], 0, ⟨.empty, .empty, .empty⟩⟩).2.1
    (by decide) (by decide)

/-- `get_mutable_attribute<float>`.  The initial contents that
`CustomData_add_layer_named` (`CD_SET_DEFAULT`) gives a newly allocated
layer live outside this translation unit and are abstracted as the
`fresh_contents` parameter (modelled from the spec); the function fills the
new layer with the requested default exactly when its first element differs
from that default.  Returns the resulting span together with the updated
point cloud. -/
def get_mutable_attribute_float (pc : PointCloud) (name : String)
    (default_value : ℚ) (fresh_contents : List ℚ) : List ℚ × PointCloud :=
  if pc.totpoint ≤ 0 then ([], pc)
  else
    match findFloatLayer pc.pdata name with
    | some d => (d, pc)
    | none =>
        let span := fresh_contents
        let span :=
          if 0 < pc.totpoint ∧ span.head? ≠ some default_value then
            List.replicate span.length default_value
          else span
        (span, { pc with pdata := pc.pdata ++ [⟨name, AttrData.floats span⟩] })

/-- C5: a typed write-access request returns a zero-length span and
allocates nothing when the point count is not positive; returns an existing
layer unmodified (never overwritten with the default); and fills a newly
allocated layer with the requested default exactly when the fresh first
element differs from that default — a fresh layer whose first element
equals the default is returned unfilled. -/
theorem get_mutable_attribute_spec (pc : PointCloud) (name : String)
    (default_value : ℚ) (fresh_contents : List ℚ) :
    (pc.totpoint ≤ 0 →
        get_mutable_attribute_float pc name default_value fresh_contents = ([], pc))
    ∧ (∀ d, 0 < pc.totpoint → findFloatLayer pc.pdata name = some d →
        get_mutable_attribute_float pc name default_value fresh_contents = (d, pc))
    ∧ (0 < pc.totpoint → findFloatLayer pc.pdata name = none →
        fresh_contents.head? = some default_value →
        (get_mutable_attribute_float pc name default_value fresh_contents).1
          = fresh_contents)
    ∧ (0 < pc.totpoint → findFloatLayer pc.pdata name = none →
        fresh_contents.head? ≠ some default_value →
        (get_mutable_attribute_float pc name default_value fresh_contents).1
          = List.replicate fresh_contents.length default_value) := by
  refine ⟨?_, ?_, ?_, ?_⟩
  · intro h
    simp [get_mutable_attribute_float, h]
  · intro d hpos hd
    have h : ¬ pc.totpoint ≤ 0 := by omega
    simp [get_mutable_attribute_float, h, hd]
  · intro hpos habs hhead
    have h : ¬ pc.totpoint ≤ 0 := by omega
    simp [get_mutable_attribute_float, h, habs, hhead]
  · intro hpos habs hhead
    have h : ¬ pc.totpoint ≤ 0 := by omega
    simp [get_mutable_attribute_float, h, habs, hpos, hhead]

/-- Witness for C5: two points, no `radius` layer yet, fresh contents
`[0, 0]` whose head differs from the requested default `1/100`, so the new
layer is filled with the default. -/
theorem get_mutable_attribute_spec_witness :
    (get_mutable_attribute_float ⟨2, [], [], 0, ⟨.empty, .empty, .empty⟩⟩ "radius"
        (1 / 100) [0, 0]).1 = List.replicate 2 (1 / 100 : ℚ) :=
  (get_mutable_attribute_spec ⟨2, [], [], 0, ⟨.empty, .empty, .empty⟩⟩ "radius"
      (1 / 100) [0, 0]).2.2.2 (by decide) rfl (by norm_num)

/-- The plain envelope of a nonempty position list always exists. -/
theorem min_max_isSome (ps : List V3) (h : ps ≠ []) :
    ∃ b, bounds.min_max ps = some b := by
  cases ps with
  | nil => exact absurd rfl h
  | cons p rest => exact ⟨_, rfl⟩

/-- The with-radii envelope of equal-length nonempty inputs always exists. -/
theorem min_max_with_radii_isSome (ps : List V3) (rs : List ℚ)
    (hp : ps ≠ []) (hr : rs ≠ []) :
    ∃ b, bounds.min_max_with_radii ps rs = some b := by
  cases ps with
  | nil => exact absurd rfl hp
  | cons p prest =>
      cases rs with
      | nil => exact absurd rfl hr
      | cons r rrest => exact ⟨_, rfl⟩

/-- With at least one point, the plain bounds query always yields a value. -/
theorem bounds_min_max_plain_isSome (pc : PointCloud) (hpt : pc.totpoint ≠ 0) :
    ∃ b pc2, pc.bounds_min_max_plain = (some b, pc2) := by
  unfold PointCloud.bounds_min_max_plain
  simp only [hpt, if_false]
  exact ⟨_, _, rfl⟩

/-- C1: with at least one point and a radius-padded bounds cache that is not
valid (so the query actually computes), the result is obtained by exactly
one of two paths: when no per-point radius layer backs the attribute, it is
the plain bounds — as answered by the plain-bounds query, i.e. through the
plain-bounds cache — padded uniformly by the single virtual radius value
`1/100`; when a per-point radius layer exists, it is the per-element
min/max-with-radii reduction over positions and radii, not a uniform pad. -/
theorem bounds_min_max_radius_paths (pc : PointCloud)
    (hpt : pc.totpoint ≠ 0)
    (hc : pc.runtime.bounds_with_radius_cache.isValid = false) :
    (findFloatLayer pc.pdata "radius" = none →
        (pc.bounds_min_max true).1
          = (pc.bounds_min_max false).1.map (fun b => b.pad (1 / 100)))
    ∧ (∀ rs, findFloatLayer pc.pdata "radius" = some rs → rs ≠ [] →
        pc.positions ≠ [] →
        (pc.bounds_min_max true).1 = bounds.min_max_with_radii pc.positions rs) := by
  constructor
  · intro habs
    obtain ⟨b, pc2, hplain⟩ := bounds_min_max_plain_isSome pc hpt
    unfold PointCloud.bounds_min_max
    simp only [if_true, hpt, if_false]
    cases hbwr : pc.runtime.bounds_with_radius_cache with
    | valid v => rw [hbwr] at hc; exact absurd hc (by simp [CacheState.isValid])
    | empty =>
        simp [PointCloud.radius, get_varray_attribute_float, habs,
          VArrayQ.get_if_single, hplain]
    | dirty =>
        simp [PointCloud.radius, get_varray_attribute_float, habs,
          VArrayQ.get_if_single, hplain]
  · intro rs hrs hrne hpne
    obtain ⟨b, hb⟩ := min_max_with_radii_isSome pc.positions rs hpne hrne
    unfold PointCloud.bounds_min_max
    simp only [if_true, hpt, if_false]
    cases hbwr : pc.runtime.bounds_with_radius_cache with
    | valid v => rw [hbwr] at hc; exact absurd hc (by simp [CacheState.isValid])
    | empty =>
        simp only [PointCloud.radius, get_varray_attribute_float, hrs,
          VArrayQ.get_if_single, VArrayQ.get_internal_span, hb, Option.getD_some]
    | dirty =>
        simp only [PointCloud.radius, get_varray_attribute_float, hrs,
          VArrayQ.get_if_single, VArrayQ.get_internal_span, hb, Option.getD_some]

/-- Witness for C1: one point at the origin with a per-point radius layer
`[2]`, empty caches; the query answers with the per-element reduction. -/
theorem bounds_min_max_radius_paths_witness :
    (PointCloud.bounds_min_max
        ⟨1, [⟨"position", AttrData.float3s [⟨0, 0, 0⟩]⟩,
             ⟨"radius", AttrData.floats [2]⟩], [], 0,
          ⟨.empty, .empty, .empty⟩⟩ true).1
      = bounds.min_max_with_radii
          (PointCloud.positions
            ⟨1, [⟨"position", AttrData.float3s [⟨0, 0, 0⟩]⟩,
                 ⟨"radius", AttrData.floats [2]⟩], [], 0,
              ⟨.empty, .empty, .empty⟩⟩) [2] :=
  (bounds_min_max_radius_paths
      ⟨1, [⟨"position", AttrData.float3s [⟨0, 0, 0⟩]⟩,
           ⟨"radius", AttrData.floats [2]⟩], [], 0,
        ⟨.empty, .empty, .empty⟩⟩ (by decide) rfl).2 [2] rfl (by simp)
    (by simp [PointCloud.positions, findFloat3Layer])

/-- Identity of a heap-allocated `PointCloud *` (pointer identity; the null
pointer is `Option.none` wherever a pointer may be null). -/
structure PCPtr where
  id : Nat
deriving DecidableEq

/-- Modelled from the spec (§4.3): whether a geometry component owns its
payload or merely references read-only data. -/
inductive Ownership where
  | Owned
  | ReadOnly
deriving DecidableEq

/-- Modelled from the spec: the point-cloud component of a geometry set —
a possibly-null pointer to the payload plus its ownership. -/
structure PointCloudComponent where
  pointcloud : Option PCPtr
  ownership : Ownership
deriving DecidableEq

/-- Modelled from the spec: the geometry container threaded through the
evaluation pipeline; only the point-cloud component is relevant here. -/
structure GeometrySet where
  pc_component : Option PointCloudComponent
deriving DecidableEq

/-- Modelled from the spec: `GeometrySet::from_pointcloud` wraps a pointer
in a fresh component with the given ownership. -/
def GeometrySet.from_pointcloud (p : PCPtr) (o : Ownership) : GeometrySet :=
  ⟨some ⟨some p, o⟩⟩

/-- `take_pointcloud_ownership_from_geometry_set`: if the container has no
component, do nothing; otherwise release the component's pointer — adding it
back as a read-only non-owning component when non-null, or removing the
empty component — and return the released pointer. -/
def take_pointcloud_ownership_from_geometry_set (gs : GeometrySet) :
    Option PCPtr × GeometrySet :=
  match gs.pc_component with
  | none => (none, gs)
  | some comp =>
      match comp.pointcloud with
      | some p => (some p, ⟨some ⟨some p, Ownership.ReadOnly⟩⟩)
      | none => (none, ⟨none⟩)

/-- The evaluation result handed to the caller: the evaluated data pointer,
the ownership flag, and the geometry set left behind on the object. -/
structure EvalResult where
  data : PCPtr
  is_owned : Bool
  geometry_set_eval : GeometrySet
deriving DecidableEq

/-- `BKE_pointcloud_data_update`: wrap the original point cloud read-only,
run the modifier stages (an opaque function on the geometry set), take the
point-cloud payload out; if there is none, synthesize an empty zero-point
cloud at a fresh pointer; the ownership flag is set exactly when the
evaluated pointer differs from the original.  The heap maps pointers to
point-cloud values; `fresh` is the allocator's next unused pointer. -/
def BKE_pointcloud_data_update (heap : PCPtr → PointCloud) (orig : PCPtr)
    (modifiers : GeometrySet → GeometrySet) (fresh : PCPtr) :
    EvalResult × (PCPtr → PointCloud) :=
  let geometry_set := GeometrySet.from_pointcloud orig Ownership.ReadOnly
  let geometry_set := modifiers geometry_set
  match take_pointcloud_ownership_from_geometry_set geometry_set with
  | (some p, gs2) => (⟨p, decide (p ≠ orig), gs2⟩, heap)
  | (none, gs2) =>
      (⟨fresh, decide (fresh ≠ orig), gs2⟩,
        fun q => if q = fresh then BKE_pointcloud_new_nomain 0 else heap q)

/-- C6: when the geometry container holds no point-cloud payload after the
stages ran, the evaluation result is a newly synthesized zero-point cloud
at the fresh pointer, its ownership flag is `owned`, and the heap at that
pointer holds the empty point cloud. -/
theorem data_update_synthesizes_empty_owned (heap : PCPtr → PointCloud)
    (orig fresh : PCPtr) (modifiers : GeometrySet → GeometrySet)
    (hf : fresh ≠ orig)
    (hnone : (take_pointcloud_ownership_from_geometry_set
        (modifiers (GeometrySet.from_pointcloud orig Ownership.ReadOnly))).1 = none) :
    (BKE_pointcloud_data_update heap orig modifiers fresh).1.data = fresh
    ∧ (BKE_pointcloud_data_update heap orig modifiers fresh).1.is_owned = true
    ∧ (BKE_pointcloud_data_update heap orig modifiers fresh).2 fresh
        = BKE_pointcloud_new_nomain 0
    ∧ ((BKE_pointcloud_data_update heap orig modifiers fresh).2 fresh).totpoint = 0 := by
  rcases h : take_pointcloud_ownership_from_geometry_set
      (modifiers (GeometrySet.from_pointcloud orig Ownership.ReadOnly)) with ⟨o, gs2⟩
  rw [h] at hnone
  simp only at hnone
  subst hnone
  refine ⟨?_, ?_, ?_, ?_⟩ <;>
    simp [BKE_pointcloud_data_update, h, hf, BKE_pointcloud_new_nomain,
      pointcloud_init_data]

/-- Witness for C6: a single stage that discards the whole container. -/
theorem data_update_synthesizes_empty_owned_witness :
    (BKE_pointcloud_data_update (fun _ => pointcloud_init_data) ⟨0⟩
        (fun _ => ⟨none⟩) ⟨1⟩).1.data = ⟨1⟩
    ∧ (BKE_pointcloud_data_update (fun _ => pointcloud_init_data) ⟨0⟩
        (fun _ => ⟨none⟩) ⟨1⟩).1.is_owned = true
    ∧ (BKE_pointcloud_data_update (fun _ => pointcloud_init_data) ⟨0⟩
        (fun _ => ⟨none⟩) ⟨1⟩).2 ⟨1⟩ = BKE_pointcloud_new_nomain 0
    ∧ ((BKE_pointcloud_data_update (fun _ => pointcloud_init_data) ⟨0⟩
        (fun _ => ⟨none⟩) ⟨1⟩).2 ⟨1⟩).totpoint = 0 :=
  data_update_synthesizes_empty_owned (fun _ => pointcloud_init_data) ⟨0⟩ ⟨1⟩
    (fun _ => ⟨none⟩) (by decide) rfl

/-- C7: when the stages leave the geometry set unchanged (in particular a
pipeline with zero enabled stages), the caller receives the original
pointer with the ownership flag not-owned; and for every pipeline the
ownership flag is set exactly when the evaluated pointer differs from the
original. -/
theorem data_update_borrowed_ownership (heap : PCPtr → PointCloud)
    (orig fresh : PCPtr) (modifiers : GeometrySet → GeometrySet)
    (hid : modifiers (GeometrySet.from_pointcloud orig Ownership.ReadOnly)
        = GeometrySet.from_pointcloud orig Ownership.ReadOnly) :
    (BKE_pointcloud_data_update heap orig modifiers fresh).1.data = orig
    ∧ (BKE_pointcloud_data_update heap orig modifiers fresh).1.is_owned = false
    ∧ (∀ m2 : GeometrySet → GeometrySet,
        (BKE_pointcloud_data_update heap orig m2 fresh).1.is_owned = true
          ↔ (BKE_pointcloud_data_update heap orig m2 fresh).1.data ≠ orig) := by
  have htake : take_pointcloud_ownership_from_geometry_set
      (modifiers (GeometrySet.from_pointcloud orig Ownership.ReadOnly))
      = (some orig, GeometrySet.from_pointcloud orig Ownership.ReadOnly) := by
    rw [hid]
    rfl
  refine ⟨?_, ?_, ?_⟩
  · simp [BKE_pointcloud_data_update, htake]
  · simp [BKE_pointcloud_data_update, htake]
  · intro m2
    rcases h : take_pointcloud_ownership_from_geometry_set
        (m2 (GeometrySet.from_pointcloud orig Ownership.ReadOnly)) with ⟨o, gs2⟩
    cases o with
    | none => simp [BKE_pointcloud_data_update, h]
    | some p => simp [BKE_pointcloud_data_update, h]

/-- Witness for C7: the identity pipeline (zero enabled stages). -/
theorem data_update_borrowed_ownership_witness :
    (BKE_pointcloud_data_update (fun _ => pointcloud_init_data) ⟨0⟩
        (fun gs => gs) ⟨1⟩).1.data = ⟨0⟩
    ∧ (BKE_pointcloud_data_update (fun _ => pointcloud_init_data) ⟨0⟩
        (fun gs => gs) ⟨1⟩).1.is_owned = false
    ∧ (∀ m2 : GeometrySet → GeometrySet,
        (BKE_pointcloud_data_update (fun _ => pointcloud_init_data) ⟨0⟩
            m2 ⟨1⟩).1.is_owned = true
          ↔ (BKE_pointcloud_data_update (fun _ => pointcloud_init_data) ⟨0⟩
              m2 ⟨1⟩).1.data ≠ ⟨0⟩) :=
  data_update_borrowed_ownership (fun _ => pointcloud_init_data) ⟨0⟩ ⟨1⟩
    (fun gs => gs) rfl

/-- A layer as stored in memory: a name plus a reference to the heap buffer
that holds its dense data (for reasoning about aliasing in
`pointcloud_copy_data`). -/
structure LayerRef where
  name : String
  buf : Nat
deriving DecidableEq

/-- A point cloud whose attribute layers and material array are references
into a buffer heap, exposing which allocations are shared. -/
structure PointCloudMem where
  totpoint : ℤ
  pdata : List LayerRef
  mat_buf : Nat
  runtime : PointCloudRuntime

/-- The allocator state: the next unused buffer id, the attribute buffers
and the material-pointer-array buffers. -/
structure MemHeap where
  next : Nat
  attrs : Nat → AttrData
  mats : Nat → List Nat

/-- Overwrite one attribute buffer (a caller mutating a layer's data). -/
def MemHeap.writeAttr (h : MemHeap) (b : Nat) (d : AttrData) : MemHeap :=
  { h with attrs := fun i => if i = b then d else h.attrs i }

/-- Modelled from the spec: `CustomData_init_from` with `CD_MASK_ALL`
deep-duplicates every layer — each copied layer gets a freshly allocated
buffer holding the same contents. -/
def copyLayers : MemHeap → List LayerRef → List LayerRef × MemHeap
  | h, [] => ([], h)
  | h, l :: rest =>
      let b := h.next
      let h1 : MemHeap :=
        { next := b + 1
          attrs := fun i => if i = b then h.attrs l.buf else h.attrs i
          mats := h.mats }
      let res := copyLayers h1 rest
      (⟨l.name, b⟩ :: res.1, res.2)

/-- Copying layers only moves the allocation frontier forward. -/
theorem copyLayers_next_le (ls : List LayerRef) (h : MemHeap) :
    h.next ≤ (copyLayers h ls).2.next := by
  induction ls generalizing h with
  | nil => exact le_refl _
  | cons l rest ih =>
      simp only [copyLayers]
      exact le_trans (Nat.le_succ _)
        (ih ⟨h.next + 1, fun i => if i = h.next then h.attrs l.buf else h.attrs i,
          h.mats⟩)

/-- Copying layers never touches material buffers. -/
theorem copyLayers_mats (ls : List LayerRef) (h : MemHeap) :
    (copyLayers h ls).2.mats = h.mats := by
  induction ls generalizing h with
  | nil => rfl
  | cons l rest ih => simp only [copyLayers, ih]

/-- Copying layers leaves every already-allocated buffer unchanged. -/
theorem copyLayers_attrs_lt (ls : List LayerRef) (h : MemHeap) (i : Nat)
    (hi : i < h.next) :
    (copyLayers h ls).2.attrs i = h.attrs i := by
  induction ls generalizing h with
  | nil => rfl
  | cons l rest ih =>
      simp only [copyLayers]
      rw [ih ⟨h.next + 1, fun j => if j = h.next then h.attrs l.buf else h.attrs j,
        h.mats⟩ (lt_trans hi (Nat.lt_succ_self _))]
      simp [Nat.ne_of_lt hi]

/-- Every copied layer lives in a buffer allocated during the copy. -/
theorem copyLayers_bufs_ge (ls : List LayerRef) (h : MemHeap) :
    ∀ l ∈ (copyLayers h ls).1, h.next ≤ l.buf := by
  induction ls generalizing h with
  | nil => intro l hl; exact absurd hl (by simp [copyLayers])
  | cons l rest ih =>
      intro l2 hl2
      simp only [copyLayers, List.mem_cons] at hl2
      cases hl2 with
      | inl he => subst he; exact le_refl _
      | inr hm => exact le_trans (Nat.le_succ _) (ih _ _ hm)

/-- The copied layers have the same names as the originals and their fresh
buffers hold the same contents the originals held. -/
theorem copyLayers_contents (ls : List LayerRef) (h : MemHeap)
    (hv : ∀ l ∈ ls, l.buf < h.next) :
    (copyLayers h ls).1.map LayerRef.name = ls.map LayerRef.name
    ∧ (copyLayers h ls).1.map (fun d => (copyLayers h ls).2.attrs d.buf)
        = ls.map (fun s => h.attrs s.buf) := by
  induction ls generalizing h with
  | nil => exact ⟨rfl, rfl⟩
  | cons l rest ih =>
      have hlb : l.buf < h.next := hv l (by simp)
      have hv1 : ∀ l2 ∈ rest,
          l2.buf < h.next + 1 := fun l2 hm => lt_trans (hv l2 (by simp [hm])) (Nat.lt_succ_self _)
      simp only [copyLayers, List.map_cons]
      obtain ⟨ihn, ihc⟩ := ih
        ⟨h.next + 1, fun i => if i = h.next then h.attrs l.buf else h.attrs i, h.mats⟩ hv1
      refine ⟨by rw [ihn], ?_⟩
      rw [ihc]
      congr 1
      · rw [copyLayers_attrs_lt _ _ _ (Nat.lt_succ_self _)]
        simp
      · exact List.map_congr_left fun s hs => by
          simp [Nat.ne_of_lt (hv s (by simp [hs]))]

/-- `pointcloud_copy_data`: duplicate the material array into a fresh buffer
(`MEM_dupallocN`), deep-duplicate every attribute layer
(`CustomData_init_from`), and give the copy a new runtime that inherits the
source's cached bounds, radius-padded bounds and acceleration structure. -/
def pointcloud_copy_data (h : MemHeap) (src : PointCloudMem) :
    PointCloudMem × MemHeap :=
  let mb := h.next
  let h1 : MemHeap :=
    { next := mb + 1
      attrs := h.attrs
      mats := fun i => if i = mb then h.mats src.mat_buf else h.mats i }
  let res := copyLayers h1 src.pdata
  ({ totpoint := src.totpoint
     pdata := res.1
     mat_buf := mb
     runtime :=
       { bounds_cache := src.runtime.bounds_cache
         bounds_with_radius_cache := src.runtime.bounds_with_radius_cache
         bvh_cache := src.runtime.bvh_cache } }, res.2)

/-- C9: for a valid source, copying yields attribute storage that is
value-distinct — every copied layer lives in a buffer disjoint from every
source buffer, so overwriting a copy buffer never changes a source layer
and vice versa — while the copy is a true duplicate (same layer names and
contents, same material array contents at a distinct buffer) and inherits
the source's cached derived values. -/
theorem pointcloud_copy_data_distinct (h : MemHeap) (src : PointCloudMem)
    (hval : ∀ l ∈ src.pdata, l.buf < h.next) (hmat : src.mat_buf < h.next) :
    (∀ ld ∈ (pointcloud_copy_data h src).1.pdata, ∀ ls ∈ src.pdata, ld.buf ≠ ls.buf)
    ∧ (pointcloud_copy_data h src).1.mat_buf ≠ src.mat_buf
    ∧ (∀ ld ∈ (pointcloud_copy_data h src).1.pdata, ∀ d : AttrData, ∀ ls ∈ src.pdata,
        ((pointcloud_copy_data h src).2.writeAttr ld.buf d).attrs ls.buf
          = (pointcloud_copy_data h src).2.attrs ls.buf)
    ∧ (∀ ls ∈ src.pdata, ∀ d : AttrData, ∀ ld ∈ (pointcloud_copy_data h src).1.pdata,
        ((pointcloud_copy_data h src).2.writeAttr ls.buf d).attrs ld.buf
          = (pointcloud_copy_data h src).2.attrs ld.buf)
    ∧ (pointcloud_copy_data h src).1.runtime.bounds_cache = src.runtime.bounds_cache
    ∧ (pointcloud_copy_data h src).1.runtime.bounds_with_radius_cache
        = src.runtime.bounds_with_radius_cache
    ∧ (pointcloud_copy_data h src).1.runtime.bvh_cache = src.runtime.bvh_cache
    ∧ (pointcloud_copy_data h src).2.mats (pointcloud_copy_data h src).1.mat_buf
        = h.mats src.mat_buf
    ∧ (pointcloud_copy_data h src).1.pdata.map LayerRef.name
        = src.pdata.map LayerRef.name
    ∧ (pointcloud_copy_data h src).1.pdata.map
          (fun d => (pointcloud_copy_data h src).2.attrs d.buf)
        = src.pdata.map (fun s => h.attrs s.buf) := by
  simp only [pointcloud_copy_data]
  have hval1 : ∀ l ∈ src.pdata, l.buf <
      (⟨h.next + 1, h.attrs,
        fun i => if i = h.next then h.mats src.mat_buf else h.mats i⟩ : MemHeap).next :=
    fun l hl => lt_trans (hval l hl) (Nat.lt_succ_self _)
  have hdisj : ∀ ld ∈ (copyLayers
      ⟨h.next + 1, h.attrs,
        fun i => if i = h.next then h.mats src.mat_buf else h.mats i⟩ src.pdata).1,
      ∀ ls ∈ src.pdata, ld.buf ≠ ls.buf := by
    intro ld hld ls hls
    have hge := copyLayers_bufs_ge _ _ ld hld
    have hlt := hval ls hls
    simp only at hge
    omega
  obtain ⟨hnames, hcontents⟩ := copyLayers_contents src.pdata
    ⟨h.next + 1, h.attrs,
      fun i => if i = h.next then h.mats src.mat_buf else h.mats i⟩ hval1
  refine ⟨hdisj, ?_, ?_, ?_, ?_, ?_, ?_, ?_, ?_, ?_⟩
  · simpa using Nat.ne_of_gt hmat
  · intro ld hld d ls hls
    simp [MemHeap.writeAttr, Ne.symm (hdisj ld hld ls hls)]
  · intro ls hls d ld hld
    simp [MemHeap.writeAttr, hdisj ld hld ls hls]
  · trivial
  · trivial
  · trivial
  · rw [copyLayers_mats]
    simp
  · exact hnames
  · exact hcontents

/-- Witness for C9: a one-layer source at buffer 0 with the material array
at buffer 1; the copy's material buffer is distinct from the source's. -/
theorem pointcloud_copy_data_distinct_witness :
    (pointcloud_copy_data
        ⟨2, fun i => if i = 0 then AttrData.floats [5] else AttrData.floats [],
          fun i => if i = 1 then [7] else []⟩
        ⟨1, [⟨"radius", 0⟩], 1, ⟨.empty, .empty, .empty⟩⟩).1.mat_buf
      ≠ (⟨1, [⟨"radius", 0⟩], 1,
          ⟨.empty, .empty, .empty⟩⟩ : PointCloudMem).mat_buf :=
  (pointcloud_copy_data_distinct
      ⟨2, fun i => if i = 0 then AttrData.floats [5] else AttrData.floats [],
        fun i => if i = 1 then [7] else []⟩
      ⟨1, [⟨"radius", 0⟩], 1, ⟨.empty, .empty, .empty⟩⟩
      (by simp) (by simp)).2.1
